import Mathlib

/-
  Verification of the OpenBench web dashboard frontend
  (src/frontend/src/api/client.ts, src/frontend/src/components/RunForm.tsx,
  and the RunDetail page) against the Run Execution and Live Event
  Pipeline specification.  The FastAPI backend is not part of the source
  tree; where a property is decided by backend behaviour, the backend is
  modelled from the specification text and marked as such.
-/

namespace OpenBench

/-! ## TypeScript interface shapes (client.ts lines 24 to 92)

A TypeScript field declaration is transcribed as a name, a base type, an
optional flag (declared with a question mark) and a nullable flag
(declared as a union with null). -/

inductive TsBase
  | str
  | num
  | streamLit
  deriving DecidableEq, Repr

structure FieldSpec where
  name : String
  base : TsBase
  optional : Bool
  nullable : Bool
  deriving DecidableEq, Repr

/-- client.ts lines 47 to 50: SSEStatusEvent has status and timestamp, both
required strings. -/
def sseStatusEventFields : List FieldSpec :=
  [⟨"status", .str, false, false⟩, ⟨"timestamp", .str, false, false⟩]

/-- client.ts lines 52 to 55: SSELogLineEvent has a stream tag (the string
union of stdout and stderr) and a line, both required. -/
def sseLogLineEventFields : List FieldSpec :=
  [⟨"stream", .streamLit, false, false⟩, ⟨"line", .str, false, false⟩]

/-- client.ts lines 57 to 62: SSEProgressEvent has current, total,
percentage (required numbers) and an optional message. -/
def sseProgressEventFields : List FieldSpec :=
  [⟨"current", .num, false, false⟩, ⟨"total", .num, false, false⟩,
   ⟨"percentage", .num, false, false⟩, ⟨"message", .str, true, false⟩]

/-- client.ts lines 64 to 67: SSECompletedEvent has a required exit_code
and a nullable finished_at. -/
def sseCompletedEventFields : List FieldSpec :=
  [⟨"exit_code", .num, false, false⟩, ⟨"finished_at", .str, false, true⟩]

/-- client.ts lines 69 to 73: SSEFailedEvent has a required exit_code, a
nullable error and a nullable finished_at. -/
def sseFailedEventFields : List FieldSpec :=
  [⟨"exit_code", .num, false, false⟩, ⟨"error", .str, false, true⟩,
   ⟨"finished_at", .str, false, true⟩]

/-- client.ts lines 75 to 77: SSECanceledEvent has only a nullable
finished_at. -/
def sseCanceledEventFields : List FieldSpec :=
  [⟨"finished_at", .str, false, true⟩]

/-- client.ts lines 79 to 81: SSEHeartbeatEvent has a required timestamp. -/
def sseHeartbeatEventFields : List FieldSpec :=
  [⟨"timestamp", .str, false, false⟩]

/-- client.ts lines 156 to 220: the event names for which
subscribeToRunEvents registers an addEventListener handler, in source
order.  The onerror assignment on line 222 is the connection error
callback, not a named event listener. -/
def registeredEventKinds : List String :=
  ["status", "log_line", "progress", "completed", "failed", "canceled", "heartbeat"]

/-- A field description as written in the specification text: a name and
whether the spec marks the field as able to be absent (question mark). -/
structure ClaimField where
  name : String
  absenceCapable : Bool
  deriving DecidableEq, Repr

/-- A transcribed TypeScript field can be absent or null exactly when it
is optional or nullable. -/
def fieldAbsenceCapable (f : FieldSpec) : Bool :=
  f.optional || f.nullable

def fieldMatchesClaim (f : FieldSpec) (c : ClaimField) : Bool :=
  decide (f.name = c.name) && decide (c.absenceCapable = fieldAbsenceCapable f)

def shapeMatchesClaim : List FieldSpec → List ClaimField → Bool
  | [], [] => true
  | f :: fs, c :: cs => fieldMatchesClaim f c && shapeMatchesClaim fs cs
  | _, _ => false

/-- The payload shapes as the specification lists them (section 6, live
event boundary): status (status string + timestamp); log_line (stream,
line); progress (current, total, percentage, message?); completed
(exit_code, finished_at); failed (exit_code?, error?, finished_at);
canceled (finished_at); heartbeat (timestamp). -/
def specClaimedShapes : List (String × List ClaimField) :=
  [("status", [⟨"status", false⟩, ⟨"timestamp", false⟩]),
   ("log_line", [⟨"stream", false⟩, ⟨"line", false⟩]),
   ("progress", [⟨"current", false⟩, ⟨"total", false⟩, ⟨"percentage", false⟩,
                 ⟨"message", true⟩]),
   ("completed", [⟨"exit_code", false⟩, ⟨"finished_at", false⟩]),
   ("failed", [⟨"exit_code", true⟩, ⟨"error", true⟩, ⟨"finished_at", false⟩]),
   ("canceled", [⟨"finished_at", false⟩]),
   ("heartbeat", [⟨"timestamp", false⟩])]

/-- The payload shapes actually declared in client.ts: finished_at is
nullable in completed, failed and canceled; exit_code in failed is
required; error in failed is nullable. -/
def codeEventShapes : List (String × List ClaimField) :=
  [("status", [⟨"status", false⟩, ⟨"timestamp", false⟩]),
   ("log_line", [⟨"stream", false⟩, ⟨"line", false⟩]),
   ("progress", [⟨"current", false⟩, ⟨"total", false⟩, ⟨"percentage", false⟩,
                 ⟨"message", true⟩]),
   ("completed", [⟨"exit_code", false⟩, ⟨"finished_at", true⟩]),
   ("failed", [⟨"exit_code", false⟩, ⟨"error", true⟩, ⟨"finished_at", true⟩]),
   ("canceled", [⟨"finished_at", true⟩]),
   ("heartbeat", [⟨"timestamp", false⟩])]

/-- The seven transcribed interface field tables, keyed by event kind. -/
def codeFieldTables : List (String × List FieldSpec) :=
  [("status", sseStatusEventFields),
   ("log_line", sseLogLineEventFields),
   ("progress", sseProgressEventFields),
   ("completed", sseCompletedEventFields),
   ("failed", sseFailedEventFields),
   ("canceled", sseCanceledEventFields),
   ("heartbeat", sseHeartbeatEventFields)]

def tablesMatchShapes : List (String × List FieldSpec) → List (String × List ClaimField) → Bool
  | [], [] => true
  | (n, fs) :: ts, (m, cs) :: ss =>
      decide (n = m) && shapeMatchesClaim fs cs && tablesMatchShapes ts ss
  | _, _ => false

/-- The live event boundary as the claim states it: the seven kinds are
registered in order and every payload shape matches the shapes the spec
lists, with unmarked fields required and non-nullable. -/
def sseBoundaryShapeAsSpecified : Bool :=
  decide (registeredEventKinds =
    ["status", "log_line", "progress", "completed", "failed", "canceled", "heartbeat"]) &&
  tablesMatchShapes codeFieldTables specClaimedShapes

/-! ## The SSE subscription dispatch loop (client.ts lines 152 to 231)

subscribeToRunEvents opens an EventSource and registers one listener per
named event kind.  Each listener parses the event data; on parse success
it invokes the corresponding handler, and for the three terminal kinds it
then closes the EventSource.  On parse failure it invokes onError (except
for heartbeat, whose parse failures are swallowed).  The browser onerror
callback invokes onError and closes the EventSource.  A closed
EventSource dispatches no further events. -/

inductive SSEKind
  | status
  | log_line
  | progress
  | completed
  | failed
  | canceled
  | heartbeat
  deriving DecidableEq, Repr

def isTerminalKind : SSEKind → Bool
  | .completed => true
  | .failed => true
  | .canceled => true
  | _ => false

/-- An item arriving on the EventSource: a named event whose data either
parses or not, or a transport error surfaced through onerror. -/
inductive WireItem
  | event (kind : SSEKind) (parseOk : Bool)
  | connError
  deriving DecidableEq, Repr

/-- A callback invocation observed by the subscriber: one of the seven
named handlers, or the onError callback. -/
inductive Invocation
  | handlerCall (kind : SSEKind)
  | errorCall
  deriving DecidableEq, Repr

def isTerminalInvocation : Invocation → Bool
  | .handlerCall k => isTerminalKind k
  | .errorCall => false

/-- One listener firing, as written in client.ts: the list of callback
invocations it performs and whether it calls eventSource.close.
A successfully parsed terminal event closes the source right after its
handler returns; a parse failure reaches the catch block instead, so the
close call is skipped; heartbeat parse failures invoke nothing. -/
def subscribeDispatch : WireItem → List Invocation × Bool
  | .event k true => ([.handlerCall k], isTerminalKind k)
  | .event k false => if k = .heartbeat then ([], false) else ([.errorCall], false)
  | .connError => ([.errorCall], true)

/-- The trace of callback invocations produced by a sequence of wire
items, starting from a connection that is open (true) or closed (false).
A closed EventSource dispatches nothing. -/
def subscribeTrace : Bool → List WireItem → List Invocation
  | false, _ => []
  | true, [] => []
  | true, it :: rest =>
      (subscribeDispatch it).1 ++ subscribeTrace (!(subscribeDispatch it).2) rest

/-- No invocation in the list follows a terminal handler invocation. -/
def noInvocationAfterTerminal : List Invocation → Prop
  | [] => True
  | i :: rest => (isTerminalInvocation i = true → rest = []) ∧ noInvocationAfterTerminal rest

/-! ## The RunDetail page component (src/unnamed/part_004 lines 96 to 232)

The React component state relevant to the live event handlers, and the
handlers passed to subscribeToRunEvents, transcribed from the source.
The run record mirrors the RunDetail interface of client.ts lines 24 to
44; status is kept as a string, as in TypeScript. -/

structure RunConfig where
  schema_version : Option Int
  benchmark : String
  model : String
  limit : Option Int
  temperature : Option Rat
  top_p : Option Rat
  max_tokens : Option Int
  timeout : Option Int
  epochs : Option Int
  max_connections : Option Int
  deriving DecidableEq, Repr

structure RunDetailRec where
  run_id : String
  benchmark : String
  model : String
  status : String
  created_at : String
  finished_at : Option String
  primary_metric : Option Rat
  started_at : Option String
  artifact_dir : Option String
  exit_code : Option Int
  error : Option String
  config : Option RunConfig
  command : Option String
  artifacts : List String
  stdout_tail : Option String
  stderr_tail : Option String
  deriving DecidableEq, Repr

structure SSEStatusEventVal where
  status : String
  timestamp : String
  deriving DecidableEq, Repr

structure SSELogLineEventVal where
  stream : String
  line : String
  deriving DecidableEq, Repr

structure SSEProgressEventVal where
  current : Rat
  total : Rat
  percentage : Rat
  message : Option String
  deriving DecidableEq, Repr

structure SSECompletedEventVal where
  exit_code : Int
  finished_at : Option String
  deriving DecidableEq, Repr

structure SSEFailedEventVal where
  exit_code : Int
  error : Option String
  finished_at : Option String
  deriving DecidableEq, Repr

structure SSECanceledEventVal where
  finished_at : Option String
  deriving DecidableEq, Repr

/-- The JavaScript expression x or-else undefined applied to a value of
type string or null: null stays absent, and the empty string is falsy,
so it also becomes absent. -/
def jsOrUndefined : Option String → Option String
  | some s => if s = "" then none else some s
  | none => none

/-- The RunDetail component state touched by the SSE handlers and the
polling effect: the loaded run, the page error, the accumulated log
lines, the latest progress snapshot, and the subscription flags. -/
structure PageState where
  idPresent : Bool
  run : Option RunDetailRec
  loading : Bool
  error : Option String
  stdoutLines : List String
  stderrLines : List String
  progress : Option SSEProgressEventVal
  isSSEConnected : Bool
  hasInitializedSSE : Bool
  deriving DecidableEq, Repr

/-- part_004 lines 141 to 143: onStatus stores the event status string
into the run record, when a run is loaded. -/
def onStatusHandler (s : PageState) (e : SSEStatusEventVal) : PageState :=
  { s with run := s.run.map fun r => { r with status := e.status } }

/-- part_004 lines 144 to 150: onLogLine appends the line to the stdout
list when the stream tag is stdout, otherwise to the stderr list. -/
def onLogLineHandler (s : PageState) (e : SSELogLineEventVal) : PageState :=
  if e.stream = "stdout" then { s with stdoutLines := s.stdoutLines ++ [e.line] }
  else { s with stderrLines := s.stderrLines ++ [e.line] }

/-- part_004 lines 151 to 153: onProgress replaces the stored progress
snapshot with the event. -/
def onProgressHandler (s : PageState) (e : SSEProgressEventVal) : PageState :=
  { s with progress := some e }

/-- part_004 lines 154 to 162: onCompleted sets status completed, the
exit code and finished_at (null coerced to absent), and clears the SSE
connected flag. -/
def onCompletedHandler (s : PageState) (e : SSECompletedEventVal) : PageState :=
  { s with
    run := s.run.map fun r =>
      { r with status := "completed", exit_code := some e.exit_code,
               finished_at := jsOrUndefined e.finished_at },
    isSSEConnected := false }

/-- part_004 lines 163 to 172: onFailed sets status failed, the exit
code, the error (null coerced to absent) and finished_at, and clears the
SSE connected flag. -/
def onFailedHandler (s : PageState) (e : SSEFailedEventVal) : PageState :=
  { s with
    run := s.run.map fun r =>
      { r with status := "failed", exit_code := some e.exit_code,
               error := jsOrUndefined e.error,
               finished_at := jsOrUndefined e.finished_at },
    isSSEConnected := false }

/-- part_004 lines 173 to 180: onCanceled sets status canceled and
finished_at only, and clears the SSE connected flag. -/
def onCanceledHandler (s : PageState) (e : SSECanceledEventVal) : PageState :=
  { s with
    run := s.run.map fun r =>
      { r with status := "canceled", finished_at := jsOrUndefined e.finished_at },
    isSSEConnected := false }

/-- part_004 lines 181 to 185: the onError handler clears the SSE
connected flag and resets the initialization guard so a later
subscribeToEvents call can run again. -/
def onErrorHandler (s : PageState) : PageState :=
  { s with isSSEConnected := false, hasInitializedSSE := false }

/-- part_004 lines 135 to 190: subscribeToEvents is guarded by the id
being present and the initialization flag being clear; when it runs it
sets both the initialization flag and the connected flag. -/
def subscribeToEvents (s : PageState) : PageState :=
  if s.idPresent && !s.hasInitializedSSE then
    { s with hasInitializedSSE := true, isSSEConnected := true }
  else s

/-- The run currently shown has the given status string. -/
def runStatusIs (s : PageState) (v : String) : Bool :=
  match s.run with
  | some r => decide (r.status = v)
  | none => false

/-- The run is active in the sense of the page: status running or
queued. -/
def runIsActive (s : PageState) : Bool :=
  runStatusIs s "running" || runStatusIs s "queued"

/-- part_004 lines 212 to 222: the polling effect runs exactly when an id
is present, SSE is not connected, and the run is running, queued or not
yet loaded; it then polls the run detail endpoint every two seconds. -/
def pollingActive (s : PageState) : Bool :=
  s.idPresent && !s.isSSEConnected &&
    (runStatusIs s "running" || runStatusIs s "queued" || s.run.isNone)

/-! ## The run form (src/frontend/src/components/RunForm.tsx)

The form state feeding handleSubmit (lines 293 to 311), the submit
handler (lines 350 to 373), and the min and max attributes declared on
the number inputs (lines 505 to 662). -/

structure FormState where
  benchmark : String
  model : String
  customModel : String
  limit : Option Int
  temperature : Option Rat
  topP : Option Rat
  maxTokens : Option Int
  timeout : Option Int
  epochs : Option Int
  maxConnections : Option Int
  deriving DecidableEq, Repr

/-- RunForm.tsx lines 350 to 373: resolve the model (the custom text
field when the selector says custom), refuse when benchmark or the
resolved model is empty, and otherwise build the config passed to
onSubmit.  The numeric fields are copied from the form state without any
bound check. -/
def handleSubmit (s : FormState) : Option RunConfig :=
  let finalModel := if s.model = "custom" then s.customModel else s.model
  if s.benchmark = "" ∨ finalModel = "" then none
  else some
    { schema_version := none
      benchmark := s.benchmark
      model := finalModel
      limit := s.limit
      temperature := s.temperature
      top_p := s.topP
      max_tokens := s.maxTokens
      timeout := s.timeout
      epochs := s.epochs
      max_connections := s.maxConnections }

/-- The bounds of section 6 of the spec on the optional numeric
parameters of a run configuration. -/
def configBoundsOk (c : RunConfig) : Bool :=
  (c.limit.all fun n => decide (0 < n)) &&
  (c.temperature.all fun t => decide (0 ≤ t) && decide (t ≤ 2)) &&
  (c.top_p.all fun t => decide (0 ≤ t) && decide (t ≤ 1)) &&
  (c.max_tokens.all fun n => decide (0 < n)) &&
  (c.timeout.all fun n => decide (0 < n)) &&
  (c.epochs.all fun n => decide (0 < n)) &&
  (c.max_connections.all fun n => decide (0 < n))

/-- The min and max attributes declared on the number inputs of
RunForm.tsx: limit (line 517), temperature (lines 559 to 560), top_p
(lines 578 to 579), max_tokens (lines 598 to 599), timeout (lines 617 to
618), epochs (lines 636 to 637), max_connections (lines 655 to 656). -/
def inputBoundsTable : List (String × Rat × Rat) :=
  [("limit", 1, 10000), ("temperature", 0, 2), ("top_p", 0, 1),
   ("max_tokens", 1, 128000), ("timeout", 1, 3600), ("epochs", 1, 100),
   ("max_connections", 1, 100)]

/-- Whether a value for the named parameter satisfies the bounds of
section 6 of the spec. -/
def specBoundsAllow (field : String) (x : Rat) : Bool :=
  if field = "temperature" then decide (0 ≤ x) && decide (x ≤ 2)
  else if field = "top_p" then decide (0 ≤ x) && decide (x ≤ 1)
  else if field = "limit" ∨ field = "max_tokens" ∨ field = "timeout" ∨
          field = "epochs" ∨ field = "max_connections" then decide (0 < x)
  else false

/-- Both endpoints of every input min and max range satisfy the spec
bounds; since each spec bound is an interval, every value the attributes
admit does too. -/
def attrRangesWithinSpecBounds : Bool :=
  inputBoundsTable.all fun e => specBoundsAllow e.1 e.2.1 && specBoundsAllow e.1 e.2.2

/-- A form state with an out-of-range temperature.  Such a state is
reachable in the component: the prefill prop copies temperature from an
arbitrary earlier config without clamping, and the advanced inputs are
unmounted while the panel is collapsed, so no input attribute constrains
the stored value at submit time. -/
def outOfRangeFormState : FormState :=
  { benchmark := "gsm8k", model := "openai/gpt-4o", customModel := "",
    limit := some 10, temperature := some 3, topP := none, maxTokens := none,
    timeout := none, epochs := none, maxConnections := none }

/-! ## The API request helper (client.ts lines 95 to 113)

The request method checks response.ok; when false it parses the body
(falling back to an empty object when parsing fails), and throws an
Error whose message is the body detail field when that value is truthy,
or the string Request failed followed by the status code.  When ok, it
returns the parsed JSON body.  JSON values are modelled as object trees
over null, booleans, integers and strings; arrays are not needed by any
statement below. -/

inductive JsonValue
  | null
  | bool (b : Bool)
  | num (n : Int)
  | str (s : String)
  | obj (fields : List (String × JsonValue))

def getField : List (String × JsonValue) → String → Option JsonValue
  | [], _ => none
  | (k, v) :: rest, key => if k = key then some v else getField rest key

/-- JavaScript truthiness of a JSON value: null, false, zero and the
empty string are falsy. -/
def jsTruthy : JsonValue → Bool
  | .null => false
  | .bool b => b
  | .num n => decide (n ≠ 0)
  | .str s => decide (s ≠ "")
  | .obj _ => true

/-- The string an Error constructor turns a JSON value into. -/
def jsMessageString : JsonValue → String
  | .null => "null"
  | .bool b => cond b "true" "false"
  | .num n => toString n
  | .str s => s
  | .obj _ => "[object Object]"

structure HttpResponse where
  ok : Bool
  status : Nat
  body : Option JsonValue

/-- The result of the JavaScript member access x.detail: a value (absent
modelled as none), or a TypeError when x is null, since member access on
null throws. -/
inductive JsMember
  | value (v : Option JsonValue)
  | typeError

/-- The member access error.detail on a JSON value: null throws a
TypeError, an object yields the field value or undefined, and the other
primitives yield undefined. -/
def jsGetDetail : JsonValue → JsMember
  | .null => .typeError
  | .obj fields => .value (getField fields "detail")
  | _ => .value none

/-- The detail member of the parsed error body.  The catch clause in
client.ts guards only the json call, substituting an empty object when
parsing fails; the member access itself still runs on whatever the body
parsed to, so a body that is the JSON literal null makes it throw a
TypeError. -/
def errorDetail (resp : HttpResponse) : JsMember :=
  match resp.body with
  | some v => jsGetDetail v
  | none => JsMember.value none

inductive RequestOutcome
  | success (body : JsonValue)
  | thrown (message : String)
  | parseErrorThrown
  | typeErrorThrown

/-- client.ts lines 95 to 113: the request helper.  On a non-ok response
it never returns: the member access error.detail throws a TypeError when
the body parsed to null; otherwise an Error is thrown whose message is
the detail value when that value is truthy, else the fallback with the
status code.  On an ok response with a parseable body it returns the
body; an unparseable ok body rejects with the parser error. -/
def request (resp : HttpResponse) : RequestOutcome :=
  if resp.ok then
    match resp.body with
    | some v => .success v
    | none => .parseErrorThrown
  else
    match errorDetail resp with
    | JsMember.typeError => .typeErrorThrown
    | JsMember.value d =>
        .thrown
          (match d with
           | some v =>
               if jsTruthy v then jsMessageString v
               else "Request failed: " ++ toString resp.status
           | none => "Request failed: " ++ toString resp.status)

/-- The error message as the claim words it: the detail field whenever
that field is present, and the fallback only when it is absent. -/
def claimedMessage (resp : HttpResponse) : String :=
  match errorDetail resp with
  | JsMember.value (some v) => jsMessageString v
  | _ => "Request failed: " ++ toString resp.status

/-- A non-ok response whose body carries a present but empty detail
field. -/
def emptyDetailResponse : HttpResponse :=
  { ok := false, status := 500, body := some (JsonValue.obj [("detail", JsonValue.str "")]) }

/-- The config produced by handleSubmit on outOfRangeFormState. -/
def outOfRangeConfig : RunConfig :=
  { schema_version := none, benchmark := "gsm8k", model := "openai/gpt-4o",
    limit := some 10, temperature := some 3, top_p := none, max_tokens := none,
    timeout := none, epochs := none, max_connections := none }

/-- The error message as amended, for bodies that do not parse to the
JSON literal null: the detail value when it is present and truthy, and
the fallback with the status code otherwise. -/
def amendedMessage (resp : HttpResponse) : String :=
  match errorDetail resp with
  | JsMember.value (some v) =>
      if jsTruthy v then jsMessageString v
      else "Request failed: " ++ toString resp.status
  | _ => "Request failed: " ++ toString resp.status

/-- An ok response with a parseable JSON object body. -/
def okJsonResponse : HttpResponse :=
  { ok := true, status := 200,
    body := some (JsonValue.obj [("status", JsonValue.str "ok")]) }

/-- A non-ok response whose body is the JSON literal null. -/
def nullBodyResponse : HttpResponse :=
  { ok := false, status := 502, body := some JsonValue.null }

/-! ## The backend run lifecycle, modelled from the spec

The FastAPI backend is not part of the source tree; only its HTTP
surface is visible from client.ts.  The definitions below are therefore
modelled from the specification text (sections 4.3, 4.5 and 7) and are
marked as such. -/

inductive RunStatus
  | queued
  | running
  | completed
  | failed
  | canceled
  deriving DecidableEq, Repr

def isTerminalStatus : RunStatus → Bool
  | .completed => true
  | .failed => true
  | .canceled => true
  | _ => false

/-- Modelled from the spec: the backend RunRecord fields the state
machine mutates (section 4.3), plus a counter of Launcher terminate
calls used to state the at-most-once termination property.  The backend
sources are absent from the tree. -/
structure SpecRun where
  status : RunStatus
  started_at : Option Nat
  finished_at : Option Nat
  exit_code : Option Int
  error : Option String
  terminations : Nat
  deriving DecidableEq, Repr

/-- Modelled from the spec: a freshly created record is queued with no
timestamps, exit code or error. -/
def initRun : SpecRun :=
  { status := .queued, started_at := none, finished_at := none,
    exit_code := none, error := none, terminations := 0 }

/-- Modelled from the spec: the error summary recorded on failure is the
human-readable cause, with a generic summary substituted when the cause
text is empty, so a failed run always carries a non-empty error. -/
def mkFailureError (cause : String) : String :=
  if cause = "" then "run failed" else cause

/-- Modelled from the spec, section 4.3: queued to running when the
Launcher confirms the start; any other state is left unchanged. -/
def startRun (t : Nat) (r : SpecRun) : SpecRun :=
  if r.status = .queued then { r with status := .running, started_at := some t }
  else r

/-- Modelled from the spec, section 4.3: on process exit from running,
code zero completes the run and a nonzero code fails it, recording the
exit code, finished_at and (on failure) the error summary; a terminal or
queued state is left unchanged. -/
def exitRun (code : Int) (cause : String) (t : Nat) (r : SpecRun) : SpecRun :=
  if r.status = .running then
    if code = 0 then
      { r with status := .completed, finished_at := some t, exit_code := some code }
    else
      { r with status := .failed, finished_at := some t, exit_code := some code,
               error := some (mkFailureError cause) }
  else r

/-- Modelled from the spec, section 7: a SpawnError leaves the record
created as queued and immediately transitions it to failed with the
underlying cause; no exit code is available. -/
def spawnFailRun (cause : String) (t : Nat) (r : SpecRun) : SpecRun :=
  if r.status = .queued then
    { r with status := .failed, finished_at := some t,
             error := some (mkFailureError cause) }
  else r

/-- Modelled from the spec, sections 4.3 and 4.5: cancel flips a queued
or running record to canceled, sets finished_at, invokes the Launcher
terminate exactly then, and returns the resulting status; on any other
state it is a no-op that reports the actual current status.  This is the
behaviour behind the POST cancel route called by api.cancelRun in
client.ts lines 142 to 146. -/
def cancelRun (t : Nat) (r : SpecRun) : SpecRun × RunStatus :=
  if r.status = .queued ∨ r.status = .running then
    ({ r with status := .canceled, finished_at := some t,
              terminations := r.terminations + 1 },
     RunStatus.canceled)
  else (r, r.status)

/-- The records reachable from a fresh record by the modelled
transitions. -/
inductive Reachable : SpecRun → Prop
  | init : Reachable initRun
  | start (t : Nat) (r : SpecRun) : Reachable r → Reachable (startRun t r)
  | exit (code : Int) (cause : String) (t : Nat) (r : SpecRun) :
      Reachable r → Reachable (exitRun code cause t r)
  | spawnFail (cause : String) (t : Nat) (r : SpecRun) :
      Reachable r → Reachable (spawnFailRun cause t r)
  | cancel (t : Nat) (r : SpecRun) : Reachable r → Reachable (cancelRun t r).1

/-- A loaded run record in the running state, for concrete witnesses. -/
def demoRunRec : RunDetailRec :=
  { run_id := "r1", benchmark := "gsm8k", model := "groq/llama-3.1-8b-instant",
    status := "running", created_at := "t0", finished_at := none,
    primary_metric := none, started_at := some "t1", artifact_dir := none,
    exit_code := none, error := none, config := none, command := none,
    artifacts := [], stdout_tail := none, stderr_tail := none }

/-- A RunDetail page showing a running run over a live SSE connection. -/
def demoPageState : PageState :=
  { idPresent := true, run := some demoRunRec, loading := false, error := none,
    stdoutLines := [], stderrLines := [], progress := none,
    isSSEConnected := true, hasInitializedSSE := true }

/-- A failed event whose nullable error field is null, a value the
declared SSEFailedEvent type admits. -/
def nullErrorFailedEvent : SSEFailedEventVal :=
  { exit_code := 1, error := none, finished_at := some "t2" }

/-! ## Theorems -/

theorem subscribeTrace_closed (items : List WireItem) :
    subscribeTrace false items = [] := by
  cases items <;> rfl

theorem mkFailureError_ne_empty (cause : String) : mkFailureError cause ≠ "" := by
  by_cases h : cause = "" <;> simp [mkFailureError, h]

theorem noInvocationAfterTerminal_trace (items : List WireItem) :
    noInvocationAfterTerminal (subscribeTrace true items) := by
  induction items with
  | nil => trivial
  | cons it rest ih =>
    cases it with
    | connError =>
        simp [subscribeTrace, subscribeDispatch, subscribeTrace_closed,
              noInvocationAfterTerminal, isTerminalInvocation]
    | event k pOk =>
        cases pOk with
        | true =>
            cases hk : isTerminalKind k with
            | true =>
                simp [subscribeTrace, subscribeDispatch, hk, subscribeTrace_closed,
                      noInvocationAfterTerminal, isTerminalInvocation]
            | false =>
                simp [subscribeTrace, subscribeDispatch, hk,
                      noInvocationAfterTerminal, isTerminalInvocation, ih]
        | false =>
            by_cases hk : k = SSEKind.heartbeat
            · simp [subscribeTrace, subscribeDispatch, hk, ih]
            · simp [subscribeTrace, subscribeDispatch, hk,
                    noInvocationAfterTerminal, isTerminalInvocation, ih]

/-- C1: a successfully parsed completed, failed or canceled event closes
the EventSource immediately after its handler is dispatched, and in the
invocation trace of any wire sequence no callback whatsoever runs after
a terminal handler invocation. -/
theorem terminal_event_is_last_invocation :
    (∀ k, isTerminalKind k = true →
       subscribeDispatch (WireItem.event k true) = ([Invocation.handlerCall k], true)) ∧
    (∀ items : List WireItem, noInvocationAfterTerminal (subscribeTrace true items)) := by
  refine ⟨fun k hk => ?_, noInvocationAfterTerminal_trace⟩
  simp [subscribeDispatch, hk]

/-- C1 witness: the completed listener closes the source, and a concrete
trace with events after the terminal one dispatches nothing after it. -/
theorem terminal_event_is_last_invocation_witness :
    subscribeDispatch (WireItem.event SSEKind.completed true)
        = ([Invocation.handlerCall SSEKind.completed], true) ∧
    noInvocationAfterTerminal (subscribeTrace true
      [WireItem.event SSEKind.status true, WireItem.event SSEKind.completed true,
       WireItem.event SSEKind.log_line true]) :=
  ⟨terminal_event_is_last_invocation.1 SSEKind.completed rfl,
   terminal_event_is_last_invocation.2 _⟩

/-- C2 counterexample: the log_line event delivered over the live event
boundary has no sequence_number field at all. -/
theorem log_line_event_lacks_sequence_number :
    ¬ ("sequence_number" ∈ sseLogLineEventFields.map FieldSpec.name) := by decide

/-- C2 (amended): a log_line event delivered to the observer carries
exactly the stream tag and the line text. -/
theorem log_line_event_carries_stream_and_line_only :
    sseLogLineEventFields.map FieldSpec.name = ["stream", "line"] := by decide

/-- C3: canceling twice returns the same terminal status both times, the
second cancel is a no-op on the record, the external termination fires
at most once, the returned status is terminal, and cancel always returns
the resulting status of the run. -/
theorem cancel_twice_same_status_terminate_once (t1 t2 : Nat) (r : SpecRun) :
    ((cancelRun t2 (cancelRun t1 r).1).2 = (cancelRun t1 r).2) ∧
    ((cancelRun t2 (cancelRun t1 r).1).1 = (cancelRun t1 r).1) ∧
    ((cancelRun t2 (cancelRun t1 r).1).1.terminations ≤ r.terminations + 1) ∧
    (isTerminalStatus (cancelRun t1 r).2 = true) ∧
    ((cancelRun t1 r).2 = (cancelRun t1 r).1.status) := by
  rcases r with ⟨st, sa, fa, ec, er, tm⟩
  cases st <;> simp [cancelRun, isTerminalStatus]

theorem reachable_failed_error (r : SpecRun) (h : Reachable r) :
    r.status = RunStatus.failed → ∃ m, r.error = some m ∧ m ≠ "" := by
  induction h with
  | init => intro hf; simp [initRun] at hf
  | start t r0 _ ih =>
      intro hf
      by_cases hq : r0.status = RunStatus.queued
      · simp only [startRun, if_pos hq] at hf
        exact absurd hf (by simp)
      · simp only [startRun, if_neg hq] at hf ⊢
        exact ih hf
  | exit code cause t r0 _ ih =>
      intro hf
      by_cases hr : r0.status = RunStatus.running
      · by_cases hc : code = 0
        · simp only [exitRun, if_pos hr, if_pos hc] at hf
          exact absurd hf (by simp)
        · simp only [exitRun, if_pos hr, if_neg hc]
          exact ⟨mkFailureError cause, rfl, mkFailureError_ne_empty cause⟩
      · simp only [exitRun, if_neg hr] at hf ⊢
        exact ih hf
  | spawnFail cause t r0 _ ih =>
      intro hf
      by_cases hq : r0.status = RunStatus.queued
      · simp only [spawnFailRun, if_pos hq]
        exact ⟨mkFailureError cause, rfl, mkFailureError_ne_empty cause⟩
      · simp only [spawnFailRun, if_neg hq] at hf ⊢
        exact ih hf
  | cancel t r0 _ ih =>
      intro hf
      by_cases hqr : r0.status = RunStatus.queued ∨ r0.status = RunStatus.running
      · simp only [cancelRun, if_pos hqr] at hf
        exact absurd hf (by simp)
      · simp only [cancelRun, if_neg hqr] at hf ⊢
        exact ih hf

/-- C4 counterexample: the failed event declared at the live boundary
types its error field as nullable, and delivering a failed event whose
error is null to a subscriber viewing a running run leaves the displayed
failed run record with no error field at all. -/
theorem failed_event_error_may_be_null :
    ((sseFailedEventFields.map fun f => (f.name, fieldAbsenceCapable f))
        = [("exit_code", false), ("error", true), ("finished_at", true)]) ∧
    ((onFailedHandler demoPageState nullErrorFailedEvent).run.map fun r =>
        (r.status, r.error)) = some ("failed", none) :=
  ⟨by decide, rfl⟩

/-- C4 (amended): in every reachable record of the modelled backend state
machine, a failed run carries a non-empty error summary; at the declared
live boundary, however, the failed event types error as nullable and the
subscriber coerces a null error to an absent field, so the event-level
half of the original claim does not hold. -/
theorem failed_run_carries_nonempty_error (r : SpecRun) (h : Reachable r)
    (hf : r.status = RunStatus.failed) :
    ∃ m, r.error = some m ∧ m ≠ "" :=
  reachable_failed_error r h hf

/-- C4 witness: a run that started and exited with code one is reachable,
failed, and carries a non-empty error. -/
theorem failed_run_carries_nonempty_error_witness :
    ∃ m, (exitRun 1 "provider rejected the API key" 5 (startRun 2 initRun)).error
        = some m ∧ m ≠ "" :=
  failed_run_carries_nonempty_error _
    (Reachable.exit 1 "provider rejected the API key" 5 _
      (Reachable.start 2 _ Reachable.init))
    rfl

/-- C5 counterexample: handleSubmit accepts a form state whose
temperature is three and passes the out-of-range config to onSubmit. -/
theorem runform_accepts_out_of_range_temperature :
    handleSubmit outOfRangeFormState = some outOfRangeConfig ∧
    configBoundsOk outOfRangeConfig = false :=
  ⟨rfl, by decide⟩

/-- C5 (amended): handleSubmit enforces no numeric bounds itself: every
config it emits copies the numeric values of the form state verbatim and
only requires a nonempty benchmark and a resolved nonempty model; the
bounds of the spec appear in the form only as the min and max attributes
of the number inputs, whose ranges all lie within the spec bounds. -/
theorem handleSubmit_passes_values_through (s : FormState) (c : RunConfig)
    (h : handleSubmit s = some c) :
    c.benchmark = s.benchmark ∧ s.benchmark ≠ "" ∧ c.model ≠ "" ∧
    c.limit = s.limit ∧ c.temperature = s.temperature ∧ c.top_p = s.topP ∧
    c.max_tokens = s.maxTokens ∧ c.timeout = s.timeout ∧ c.epochs = s.epochs ∧
    c.max_connections = s.maxConnections ∧
    attrRangesWithinSpecBounds = true := by
  simp only [handleSubmit] at h
  by_cases hb : s.benchmark = "" ∨
      (if s.model = "custom" then s.customModel else s.model) = ""
  · rw [if_pos hb] at h
    cases h
  · rw [if_neg hb] at h
    push_neg at hb
    obtain rfl := (Option.some.inj h).symm
    exact ⟨rfl, hb.1, hb.2, rfl, rfl, rfl, rfl, rfl, rfl, rfl, by decide⟩

/-- C5 witness: the passthrough theorem applied to a concrete accepted
submission. -/
theorem handleSubmit_passes_values_through_witness :
    outOfRangeConfig.benchmark = outOfRangeFormState.benchmark ∧
    outOfRangeFormState.benchmark ≠ "" ∧ outOfRangeConfig.model ≠ "" ∧
    outOfRangeConfig.limit = outOfRangeFormState.limit ∧
    outOfRangeConfig.temperature = outOfRangeFormState.temperature ∧
    outOfRangeConfig.top_p = outOfRangeFormState.topP ∧
    outOfRangeConfig.max_tokens = outOfRangeFormState.maxTokens ∧
    outOfRangeConfig.timeout = outOfRangeFormState.timeout ∧
    outOfRangeConfig.epochs = outOfRangeFormState.epochs ∧
    outOfRangeConfig.max_connections = outOfRangeFormState.maxConnections ∧
    attrRangesWithinSpecBounds = true :=
  handleSubmit_passes_values_through outOfRangeFormState outOfRangeConfig rfl

/-- C6 counterexample: the declared payload shapes do not match the
shapes the claim lists: exit_code in the failed event is required rather
than optional, and finished_at is nullable in the three terminal
events. -/
theorem sse_boundary_shape_deviates : sseBoundaryShapeAsSpecified = false := by
  decide

/-- C6 (amended): the subscriber registers handlers for exactly the seven
named kinds, in order, and the payload shapes are those of client.ts:
status (status, timestamp), log_line (stream, line), progress (current,
total, percentage, message?), completed (exit_code, finished_at
nullable), failed (exit_code required, error nullable, finished_at
nullable), canceled (finished_at nullable), heartbeat (timestamp). -/
theorem sse_boundary_kinds_and_shapes :
    (registeredEventKinds =
      ["status", "log_line", "progress", "completed", "failed", "canceled",
       "heartbeat"]) ∧
    tablesMatchShapes codeFieldTables codeEventShapes = true := by decide

/-- C7: when the SSE connection errors while the run is queued or
running, the error handler marks the connection disconnected and clears
the initialization guard, so a later subscribeToEvents call connects
again, and the polling effect over the run detail endpoint becomes
active. -/
theorem sse_error_falls_back_to_polling (s : PageState)
    (hid : s.idPresent = true) (hact : runIsActive s = true) :
    (onErrorHandler s).isSSEConnected = false ∧
    (onErrorHandler s).hasInitializedSSE = false ∧
    (subscribeToEvents (onErrorHandler s)).isSSEConnected = true ∧
    pollingActive (onErrorHandler s) = true := by
  refine ⟨rfl, rfl, ?_, ?_⟩
  · simp [subscribeToEvents, onErrorHandler, hid]
  · have hact2 : runStatusIs s "running" = true ∨ runStatusIs s "queued" = true := by
      simpa [runIsActive] using hact
    have hpoll : pollingActive (onErrorHandler s)
        = (s.idPresent && !false &&
           (runStatusIs s "running" || runStatusIs s "queued" || s.run.isNone)) := rfl
    rcases hact2 with h2 | h2 <;> rw [hpoll] <;> simp [h2, hid]

/-- C7 witness: the fallback theorem applied to a live page showing a
running run. -/
theorem sse_error_falls_back_to_polling_witness :
    (onErrorHandler demoPageState).isSSEConnected = false ∧
    (onErrorHandler demoPageState).hasInitializedSSE = false ∧
    (subscribeToEvents (onErrorHandler demoPageState)).isSSEConnected = true ∧
    pollingActive (onErrorHandler demoPageState) = true :=
  sse_error_falls_back_to_polling demoPageState rfl (by decide)

/-- C8: handling a progress event replaces only the stored progress
snapshot; the loaded run record, the log line lists, the page error and
the subscription flags are all left unchanged. -/
theorem progress_event_is_advisory (s : PageState) (e : SSEProgressEventVal) :
    (onProgressHandler s e).progress = some e ∧
    (onProgressHandler s e).run = s.run ∧
    (onProgressHandler s e).idPresent = s.idPresent ∧
    (onProgressHandler s e).loading = s.loading ∧
    (onProgressHandler s e).error = s.error ∧
    (onProgressHandler s e).stdoutLines = s.stdoutLines ∧
    (onProgressHandler s e).stderrLines = s.stderrLines ∧
    (onProgressHandler s e).isSSEConnected = s.isSSEConnected ∧
    (onProgressHandler s e).hasInitializedSSE = s.hasInitializedSSE :=
  ⟨rfl, rfl, rfl, rfl, rfl, rfl, rfl, rfl, rfl⟩

/-- C9: the canceled event carries only finished_at, and handling it sets
the run status to canceled and finished_at while leaving exit_code and
error untouched. -/
theorem canceled_run_no_failure_semantics :
    (sseCanceledEventFields.map FieldSpec.name = ["finished_at"]) ∧
    (∀ (s : PageState) (e : SSECanceledEventVal),
      ((onCanceledHandler s e).run.map fun r => r.exit_code)
          = (s.run.map fun r => r.exit_code) ∧
      ((onCanceledHandler s e).run.map fun r => r.error)
          = (s.run.map fun r => r.error) ∧
      ((onCanceledHandler s e).run.map fun r => r.status)
          = (s.run.map fun _ => "canceled") ∧
      ((onCanceledHandler s e).run.map fun r => r.finished_at)
          = (s.run.map fun _ => jsOrUndefined e.finished_at)) := by
  refine ⟨by decide, fun s e => ?_⟩
  cases hrun : s.run <;> simp [onCanceledHandler, hrun]

/-- C10 counterexample: on a non-ok response whose body has a present but
empty detail field, request throws the fallback message with the status
code, not the detail value the claim prescribes. -/
theorem request_empty_detail_falls_back :
    request emptyDetailResponse = RequestOutcome.thrown "Request failed: 500" ∧
    claimedMessage emptyDetailResponse = "" ∧
    ("Request failed: 500" : String) ≠ "" :=
  ⟨rfl, rfl, by decide⟩

/-- C10 (amended): on a non-ok response request never returns: when the
body does not parse to the JSON literal null it throws an Error whose
message is the detail value when that value is present and truthy (in
particular a non-empty string) and the fallback with the status code
otherwise; when the body parses to null the member access on it throws a
TypeError instead.  On an ok response with a parseable body it returns
the parsed JSON body. -/
theorem request_error_and_success_behavior (resp : HttpResponse) :
    (resp.ok = false → resp.body ≠ some JsonValue.null →
      request resp = RequestOutcome.thrown (amendedMessage resp)) ∧
    (resp.ok = false → resp.body = some JsonValue.null →
      request resp = RequestOutcome.typeErrorThrown) ∧
    (∀ v, resp.ok = true → resp.body = some v →
      request resp = RequestOutcome.success v) := by
  refine ⟨?_, ?_, ?_⟩
  · intro hok hnn
    cases hb : resp.body with
    | none => simp [request, hok, errorDetail, hb, amendedMessage]
    | some v =>
      cases v with
      | null => exact absurd hb hnn
      | bool b => simp [request, hok, errorDetail, hb, jsGetDetail, amendedMessage]
      | num n => simp [request, hok, errorDetail, hb, jsGetDetail, amendedMessage]
      | str s => simp [request, hok, errorDetail, hb, jsGetDetail, amendedMessage]
      | obj fields =>
          cases hd : getField fields "detail" <;>
            simp [request, hok, errorDetail, hb, jsGetDetail, amendedMessage, hd]
  · intro hok hnull
    simp [request, hok, errorDetail, hnull, jsGetDetail]
  · intro v hok hb
    simp [request, hok, hb]

/-- C10 witness: the amended behavior at a concrete failing response with
an object body, a concrete failing response with a null body, and a
concrete ok response. -/
theorem request_error_and_success_behavior_witness :
    request emptyDetailResponse
        = RequestOutcome.thrown (amendedMessage emptyDetailResponse) ∧
    request nullBodyResponse = RequestOutcome.typeErrorThrown ∧
    request okJsonResponse
        = RequestOutcome.success (JsonValue.obj [("status", JsonValue.str "ok")]) :=
  ⟨(request_error_and_success_behavior emptyDetailResponse).1 rfl
      (by simp [emptyDetailResponse]),
   (request_error_and_success_behavior nullBodyResponse).2.1 rfl rfl,
   (request_error_and_success_behavior okJsonResponse).2.2 _ rfl rfl⟩

end OpenBench
